import Mathlib

/-!
Shallow embedding of `myApp.js`, a callback-based data-access layer over a
mongoose/MongoDB `Person` collection, together with proofs about its
operations.

The document store is modelled as a list of documents plus a fresh-id
counter.  Each repository operation is a function from explicit fault
injections (the store reporting an error to a callback) and a store state
to an `OpResult`, which records, in order: the completion-callback
invocations (`done` in the source), the errors printed by
`console.error`, the resulting store state, whether execution crashed with
a runtime exception (a null dereference), and how many times the store was
contacted.
-/

set_option maxHeartbeats 1000000

/-- An opaque-to-us error value reported by the underlying store
(connection error, validation error, ...). -/
structure DBError where
  code : Nat
deriving DecidableEq, Repr

/-- A persisted `Person` document.  `_id` is the store-assigned
identifier; `age` is `none` when the document carries no age field
(mongoose `age: Number` is optional, and the `select({age: 0})`
projection removes the field). -/
structure Doc where
  _id : Nat
  name : String
  age : Option Int
  favoriteFoods : List String
deriving DecidableEq, Repr

/-- A record payload prior to insertion (no identifier yet): the data fed
to `new Person(...)` or to `Person.create([...])`. -/
structure PersonPayload where
  name : String
  age : Option Int
  favoriteFoods : List String
deriving DecidableEq, Repr

/-- The backing collection: the stored documents plus the next fresh
identifier the store will assign. -/
structure Store where
  docs : List Doc
  nextId : Nat
deriving DecidableEq, Repr

/-- One invocation of a completion callback: mongoose-style
`done(err)` or `done(null, data)`. -/
inductive CallbackCall (α : Type) where
  | withError (e : DBError)
  | withResult (res : α)
deriving DecidableEq, Repr

/-- Everything observable about one run of a repository operation. -/
structure OpResult (α : Type) where
  calls : List (CallbackCall α)
  logged : List DBError
  store : Store
  crashed : Bool
  storeCalls : Nat
deriving DecidableEq, Repr

/-! ### Store primitives (the mongoose client operations the code calls) -/

/-- Primitive `Model.findById`: first document with the given `_id`, or the
absent-result marker `none`. -/
def Store.findById (s : Store) (personId : Nat) : Option Doc :=
  s.docs.find? (fun d => d._id == personId)

/-- Primitive `Model.findOne(filter)`: first document matching the filter, or
`none`. -/
def Store.findOne (s : Store) (p : Doc → Bool) : Option Doc :=
  s.docs.find? p

/-- Primitive `Model.find(filter)` executed eagerly: all matching documents. -/
def Store.findAll (s : Store) (p : Doc → Bool) : List Doc :=
  s.docs.filter p

/-- Primitive `document.save()` on a freshly constructed document: the store
assigns the next identifier and appends the document. -/
def Store.insertDoc (s : Store) (p : PersonPayload) : Doc × Store :=
  let d : Doc := ⟨s.nextId, p.name, p.age, p.favoriteFoods⟩
  (d, ⟨s.docs ++ [d], s.nextId + 1⟩)

/-- Primitive `Model.create([...])`: insert each payload in order, assigning
consecutive fresh identifiers. -/
def Store.insertManyDocs : Store → List PersonPayload → List Doc × Store
  | s, [] => ([], s)
  | s, p :: ps =>
    let r := s.insertDoc p
    let rest := r.2.insertManyDocs ps
    (r.1 :: rest.1, rest.2)

/-- Primitive `document.save()` on a previously loaded document: the stored
document with the same `_id` is replaced by the in-memory copy. -/
def Store.replaceDoc (s : Store) (d : Doc) : Store :=
  ⟨s.docs.map (fun x => if x._id == d._id then d else x), s.nextId⟩

/-- Primitive `Model.findByIdAndRemove`: the removed document (or `none` if no
match) together with the store after erasing the first match. -/
def Store.removeDocById (s : Store) (personId : Nat) : Option Doc × Store :=
  (s.findById personId, ⟨s.docs.eraseP (fun d => d._id == personId), s.nextId⟩)

/-- Primitive `Model.remove(filter)`: delete every matching document, reporting
how many were removed (the outcome summary's count). -/
def Store.removeAll (s : Store) (p : Doc → Bool) : Nat × Store :=
  ((s.docs.filter p).length, ⟨s.docs.filter (fun d => !(p d)), s.nextId⟩)

/-! ### The repository operations, translated from `src/myApp.js`

Each `Option DBError` argument injects the store's answer for one store
call: `some e` means the store reported failure `e` to that call's
callback, `none` means it succeeded.  In the source every error branch
reads `if (err) return console.error(err);` — the error is logged and the
function returns without invoking `done`. -/

/-- Operation `createAndSavePerson`: build the fixed sample person John G and
`save` it. -/
def createAndSavePerson (fault : Option DBError) (s : Store) : OpResult Doc :=
  let john : PersonPayload :=
    ⟨"John G", some 30, ["pasta", "fries", "burgers"]⟩
  match fault with
  | some e => ⟨[], [e], s, false, 1⟩
  | none =>
    let r := s.insertDoc john
    ⟨[CallbackCall.withResult r.1], [], r.2, false, 1⟩

/-- Operation `createManyPeople(arrayOfPeople, done)`: `Person.create` on the given
payloads. -/
def createManyPeople (arrayOfPeople : List PersonPayload)
    (fault : Option DBError) (s : Store) : OpResult (List Doc) :=
  match fault with
  | some e => ⟨[], [e], s, false, 1⟩
  | none =>
    let r := s.insertManyDocs arrayOfPeople
    ⟨[CallbackCall.withResult r.1], [], r.2, false, 1⟩

/-- Operation `findPeopleByName(personName, done)`: `Person.find({name: personName})`. -/
def findPeopleByName (personName : String) (fault : Option DBError)
    (s : Store) : OpResult (List Doc) :=
  match fault with
  | some e => ⟨[], [e], s, false, 1⟩
  | none =>
    ⟨[CallbackCall.withResult (s.findAll (fun d => d.name == personName))],
      [], s, false, 1⟩

/-- Operation `findOneByFood(food, done)`: `Person.findOne({favoriteFoods: food})` —
a filter on an array field matches membership. -/
def findOneByFood (food : String) (fault : Option DBError)
    (s : Store) : OpResult (Option Doc) :=
  match fault with
  | some e => ⟨[], [e], s, false, 1⟩
  | none =>
    ⟨[CallbackCall.withResult (s.findOne (fun d => d.favoriteFoods.contains food))],
      [], s, false, 1⟩

/-- Operation `findPersonById(personId, done)`: `Person.findById(personId)`. -/
def findPersonById (personId : Nat) (fault : Option DBError)
    (s : Store) : OpResult (Option Doc) :=
  match fault with
  | some e => ⟨[], [e], s, false, 1⟩
  | none =>
    ⟨[CallbackCall.withResult (s.findById personId)], [], s, false, 1⟩

/-- Operation `findEditThenSave(personId, done)`: `findById`, push `"hamburger"`
onto `data.favoriteFoods`, then `data.save`.  When `findById` succeeds
with no match (`data` is the absent marker `null`),
`data.favoriteFoods.push` throws a TypeError: modelled by
`crashed := true` with no callback call and nothing logged. -/
def findEditThenSave (personId : Nat) (fault1 fault2 : Option DBError)
    (s : Store) : OpResult Doc :=
  let foodToAdd := "hamburger"
  match fault1 with
  | some e => ⟨[], [e], s, false, 1⟩
  | none =>
    match s.findById personId with
    | none => ⟨[], [], s, true, 1⟩
    | some data =>
      let data' := { data with favoriteFoods := data.favoriteFoods ++ [foodToAdd] }
      match fault2 with
      | some e => ⟨[], [e], s, false, 2⟩
      | none =>
        ⟨[CallbackCall.withResult data'], [], s.replaceDoc data', false, 2⟩

/-- Operation `findAndUpdate(personName, done)`: `findOne({name})`, set
`data.age = 20`, then `data.save`.  As above, a successful lookup with no
match crashes on `data.age = ageToSet`. -/
def findAndUpdate (personName : String) (fault1 fault2 : Option DBError)
    (s : Store) : OpResult Doc :=
  let ageToSet : Int := 20
  match fault1 with
  | some e => ⟨[], [e], s, false, 1⟩
  | none =>
    match s.findOne (fun d => d.name == personName) with
    | none => ⟨[], [], s, true, 1⟩
    | some data =>
      let data' := { data with age := some ageToSet }
      match fault2 with
      | some e => ⟨[], [e], s, false, 2⟩
      | none =>
        ⟨[CallbackCall.withResult data'], [], s.replaceDoc data', false, 2⟩

/-- Operation `removeById(personId, done)`: `Person.findByIdAndRemove(personId)`;
the callback receives the removed document (or `null`). -/
def removeById (personId : Nat) (fault : Option DBError)
    (s : Store) : OpResult (Option Doc) :=
  match fault with
  | some e => ⟨[], [e], s, false, 1⟩
  | none =>
    let r := s.removeDocById personId
    ⟨[CallbackCall.withResult r.1], [], r.2, false, 1⟩

/-- Operation `removeManyPeople(done)`: `Person.remove({name: "Mary"})`; the
callback receives the outcome summary, modelled as the removal count. -/
def removeManyPeople (fault : Option DBError) (s : Store) : OpResult Nat :=
  let nameToRemove := "Mary"
  match fault with
  | some e => ⟨[], [e], s, false, 1⟩
  | none =>
    let r := s.removeAll (fun d => d.name == nameToRemove)
    ⟨[CallbackCall.withResult r.1], [], r.2, false, 1⟩

/-! ### The chained query -/

/-- The pending-query object built by `Person.find(...)` before `exec`:
filter value, `sort` key direction for `name` (`1` ascending, `-1`
descending), `limit` count, and the `select` specification for the `age`
field (`0` hides it).  `none` means the clause was never assembled. -/
structure PendingQuery where
  filterFood : String
  sortNameDir : Option Int
  limitN : Option Nat
  selectAge : Option Int
deriving DecidableEq, Repr

/-- Builder entry `Person.find({favoriteFoods: food})` with no callback: builds a
pending query, contacting no store. -/
def Query.find (food : String) : PendingQuery :=
  ⟨food, none, none, none⟩

/-- Builder step `.sort({name: dir})`: record the sort clause; no store contact. -/
def PendingQuery.sortBy (q : PendingQuery) (dir : Int) : PendingQuery :=
  { q with sortNameDir := some dir }

/-- Builder step `.limit(n)`: record the limit clause; no store contact. -/
def PendingQuery.limitTo (q : PendingQuery) (n : Nat) : PendingQuery :=
  { q with limitN := some n }

/-- Builder step `.select({age: spec})`: record the projection clause; no store
contact. -/
def PendingQuery.selectAgeSpec (q : PendingQuery) (spec : Int) : PendingQuery :=
  { q with selectAge := some spec }

/-- Hide the `age` field of a document, as `select({age: 0})` does. -/
def projectHideAge (d : Doc) : Doc :=
  { d with age := none }

/-- What the store computes when a pending query is executed: filter,
then sort, then limit, then project. -/
def Store.runQuery (s : Store) (q : PendingQuery) : List Doc :=
  let filtered := s.docs.filter (fun d => d.favoriteFoods.contains q.filterFood)
  let sorted :=
    match q.sortNameDir with
    | none => filtered
    | some dir =>
      if 0 ≤ dir then List.insertionSort (fun a b => a.name ≤ b.name) filtered
      else List.insertionSort (fun a b => b.name ≤ a.name) filtered
  let limited :=
    match q.limitN with
    | none => sorted
    | some n => sorted.take n
  if q.selectAge == some 0 then limited.map projectHideAge else limited

/-- Terminal step `.exec(callback)`: the single store contact of a chained query. -/
def execQuery (q : PendingQuery) (fault : Option DBError)
    (s : Store) : OpResult (List Doc) :=
  match fault with
  | some e => ⟨[], [e], s, false, 1⟩
  | none => ⟨[CallbackCall.withResult (s.runQuery q)], [], s, false, 1⟩

/-- The pending-query value `queryChain` assembles before `exec`:
`Person.find({favoriteFoods: "burrito"}).sort({name: 1}).limit(2).select({age: 0})`. -/
def queryChainPending : PendingQuery :=
  (((Query.find "burrito").sortBy 1).limitTo 2).selectAgeSpec 0

/-- Operation `queryChain(done)`: assemble the four clauses, then `exec`. -/
def queryChain (fault : Option DBError) (s : Store) : OpResult (List Doc) :=
  execQuery queryChainPending fault s

/-! ### Ordering instances for sorting documents by name -/

instance : IsTotal Doc (fun a b => a.name ≤ b.name) :=
  ⟨fun a b => le_total a.name b.name⟩

instance : IsTrans Doc (fun a b => a.name ≤ b.name) :=
  ⟨fun _ _ _ h₁ h₂ => le_trans h₁ h₂⟩

/-! ### Helper lemmas about the store primitives -/

/-- Replacing the document with a given identifier and then looking that
identifier up finds exactly the replacement, provided some stored
document carries the identifier. -/
theorem find?_replace_self (l : List Doc) (i : Nat) (d' : Doc) (hi : d'._id = i)
    (hex : ∃ x ∈ l, x._id = i) :
    (l.map (fun x => if x._id == d'._id then d' else x)).find? (fun x => x._id == i) =
      some d' := by
  induction l with
  | nil => simp at hex
  | cons a l ih =>
    by_cases ha : a._id = d'._id
    · have hb : (a._id == d'._id) = true := beq_iff_eq.mpr ha
      have hd : (d'._id == i) = true := beq_iff_eq.mpr hi
      rw [List.map_cons, if_pos hb, List.find?_cons, hd]
    · have hb : (a._id == d'._id) = false := beq_eq_false_iff_ne.mpr ha
      have hnb : ¬((a._id == d'._id) = true) := by rw [hb]; exact Bool.false_ne_true
      have hpa : (a._id == i) = false := by
        refine beq_eq_false_iff_ne.mpr (fun hcon => ha ?_)
        rw [hcon, hi]
      rw [List.map_cons, if_neg hnb, List.find?_cons, hpa]
      refine ih ?_
      obtain ⟨x, hxl, hxi⟩ := hex
      rcases List.mem_cons.mp hxl with rfl | hxl
      · exact absurd (hxi.trans hi.symm) ha
      · exact ⟨x, hxl, hxi⟩

/-- When the stored identifiers are pairwise distinct, erasing the first
document with a given identifier leaves no document with that
identifier. -/
theorem find?_eraseP_of_nodup (l : List Doc) (i : Nat)
    (hnd : (l.map Doc._id).Nodup) :
    (l.eraseP (fun x => x._id == i)).find? (fun x => x._id == i) = none := by
  induction l with
  | nil => rfl
  | cons a l ih =>
    rw [List.map_cons, List.nodup_cons] at hnd
    by_cases hb : (a._id == i) = true
    · rw [@List.eraseP_cons_of_pos Doc a l (fun x => x._id == i) hb]
      refine List.find?_eq_none.mpr (fun x hx => ?_)
      simp only [Bool.not_eq_true, beq_eq_false_iff_ne, ne_eq]
      intro hxi
      refine hnd.1 ?_
      have : a._id = x._id := by rw [hxi]; exact beq_iff_eq.mp hb
      rw [this]
      exact List.mem_map_of_mem Doc._id hx
    · have hb' : (a._id == i) = false := by
        cases h : (a._id == i) with
        | true => exact absurd h hb
        | false => rfl
      rw [@List.eraseP_cons_of_neg Doc a l (fun x => x._id == i) hb, List.find?_cons, hb']
      exact ih hnd.2

/-- Searching an appended list when nothing on the left matches reduces
to searching the right part. -/
theorem find?_append_of_forall_false (l₁ l₂ : List Doc) (p : Doc → Bool)
    (h : ∀ x ∈ l₁, p x = false) :
    (l₁ ++ l₂).find? p = l₂.find? p := by
  induction l₁ with
  | nil => rfl
  | cons a l ih =>
    rw [List.cons_append, List.find?_cons, h a (List.mem_cons_self a l)]
    exact ih (fun x hx => h x (List.mem_cons_of_mem a hx))

/-- Bulk insertion assigns the consecutive identifiers starting at the
store's fresh-id counter. -/
theorem insertManyDocs_ids : ∀ (ps : List PersonPayload) (s : Store),
    (s.insertManyDocs ps).1.map Doc._id = List.range' s.nextId ps.length
  | [], _ => rfl
  | p :: ps, s => by
    simp only [Store.insertManyDocs, Store.insertDoc, List.map_cons, List.length_cons]
    rw [insertManyDocs_ids ps]
    rfl

/-! ### Claim theorems -/

/-- C3: for every store state, the result sequence delivered by
`queryChain`'s callback on success has length at most 2, is sorted
ascending by the `name` field, and no record in it exposes an `age`
field. -/
theorem queryChain_result_bounded_sorted_no_age (s : Store) :
    ∃ l, (queryChain none s).calls = [CallbackCall.withResult l] ∧
      l.length ≤ 2 ∧ List.Sorted (fun a b : Doc => a.name ≤ b.name) l ∧
      ∀ d ∈ l, d.age = none := by
  have hq : s.runQuery queryChainPending =
      ((List.insertionSort (fun a b : Doc => a.name ≤ b.name)
        (s.docs.filter (fun d => d.favoriteFoods.contains "burrito"))).take 2).map
        projectHideAge := rfl
  refine ⟨s.runQuery queryChainPending, rfl, ?_, ?_, ?_⟩
  · rw [hq, List.length_map]
    exact List.length_take_le 2 _
  · rw [hq]
    refine @List.Pairwise.map Doc Doc (fun a b => a.name ≤ b.name) _
      (fun a b => a.name ≤ b.name) projectHideAge (fun a b hab => hab) ?_
    exact List.Pairwise.sublist (List.take_sublist 2 _) (List.sorted_insertionSort _ _)
  · rw [hq]
    intro d hd
    obtain ⟨x, hx, rfl⟩ := List.mem_map.mp hd
    rfl

/-- C4: `queryChain` assembles filter, sort order, limit, and projection
onto the single pending-query object `queryChainPending` — a closed value
built by the store-free builder steps, so assembling the clauses alone
produces no store call — and every run of `queryChain` is exactly the
execution of that pending object with a single store contact, occurring
at the `exec` trigger. -/
theorem queryChain_assembles_before_single_exec :
    queryChainPending = ⟨"burrito", some 1, some 2, some 0⟩ ∧
    (∀ fault s, queryChain fault s = execQuery queryChainPending fault s) ∧
    (∀ fault s, (queryChain fault s).storeCalls = 1) := by
  refine ⟨rfl, fun _ _ => rfl, fun fault s => ?_⟩
  cases fault <;> rfl

/-- C9: for every sequence of N record payloads, a successful
`createManyPeople` delivers exactly N created records to the callback,
each with a distinct assigned identifier. -/
theorem createManyPeople_distinct_ids (ps : List PersonPayload) (s : Store) :
    ∃ ds, (createManyPeople ps none s).calls = [CallbackCall.withResult ds] ∧
      ds.length = ps.length ∧ (ds.map Doc._id).Nodup := by
  refine ⟨(s.insertManyDocs ps).1, rfl, ?_, ?_⟩
  · have h := congrArg List.length (insertManyDocs_ids ps s)
    rw [List.length_map, List.length_range'] at h
    exact h
  · rw [insertManyDocs_ids ps s]
    exact List.nodup_range' s.nextId ps.length

/-- C10: when the initial lookup of `findEditThenSave` or `findAndUpdate`
succeeds but finds no matching record, the code dereferences the absent
marker (it pushes onto `null.favoriteFoods` / assigns `null.age`): the
run crashes, no error is surfaced, and the completion callback is never
invoked. -/
theorem absent_lookup_crashes_without_callback (i : Nat) (pn : String)
    (f2 : Option DBError) (s : Store)
    (h1 : s.findById i = none)
    (h2 : s.findOne (fun x => x.name == pn) = none) :
    (findEditThenSave i none f2 s).crashed = true ∧
    (findEditThenSave i none f2 s).calls = [] ∧
    (findEditThenSave i none f2 s).logged = [] ∧
    (findAndUpdate pn none f2 s).crashed = true ∧
    (findAndUpdate pn none f2 s).calls = [] ∧
    (findAndUpdate pn none f2 s).logged = [] := by
  simp [findEditThenSave, findAndUpdate, h1, h2]

/-- Witness for C10 at the empty store and identifier 0. -/
theorem absent_lookup_crashes_without_callback_witness :
    (Store.mk [] 0).findById 0 = none ∧
    (findEditThenSave 0 none none (Store.mk [] 0)).crashed = true :=
  ⟨rfl, (absent_lookup_crashes_without_callback 0 "nobody" none (Store.mk [] 0) rfl rfl).1⟩

/-- C5: for every identifier naming an existing record,
`findEditThenSave` on a fault-free run appends the fixed food
`"hamburger"` to that record's `favoriteFoods`, leaves all prior elements
unchanged and in order, persists the whole record, and delivers the
updated record to the callback. -/
theorem findEditThenSave_appends_hamburger (i : Nat) (s : Store) (d : Doc)
    (h : s.findById i = some d) :
    ∃ d', (findEditThenSave i none none s).calls = [CallbackCall.withResult d'] ∧
      d'._id = d._id ∧ d'.name = d.name ∧ d'.age = d.age ∧
      d'.favoriteFoods = d.favoriteFoods ++ ["hamburger"] ∧
      (findEditThenSave i none none s).store = s.replaceDoc d' ∧
      ((findEditThenSave i none none s).store).findById i = some d' := by
  have h' : s.docs.find? (fun x => x._id == i) = some d := h
  have hdi : d._id = i := by
    have hb := List.find?_some h'
    exact beq_iff_eq.mp hb
  have hmem : d ∈ s.docs := List.mem_of_find?_eq_some h'
  refine ⟨{ d with favoriteFoods := d.favoriteFoods ++ ["hamburger"] },
    ?_, rfl, rfl, rfl, rfl, ?_, ?_⟩
  · simp only [findEditThenSave, h]
  · simp only [findEditThenSave, h]
  · simp only [findEditThenSave, h]
    simp only [Store.replaceDoc, Store.findById]
    exact find?_replace_self s.docs i
      { d with favoriteFoods := d.favoriteFoods ++ ["hamburger"] } hdi ⟨d, hmem, hdi⟩

/-- Witness for C5 at a one-document store. -/
theorem findEditThenSave_appends_hamburger_witness :
    (Store.mk [Doc.mk 0 "ann" none ["rice"]] 1).findById 0 =
      some (Doc.mk 0 "ann" none ["rice"]) ∧
    (∃ d', (findEditThenSave 0 none none
          (Store.mk [Doc.mk 0 "ann" none ["rice"]] 1)).calls =
        [CallbackCall.withResult d'] ∧
      d'._id = 0 ∧ d'.name = "ann" ∧ d'.age = none ∧
      d'.favoriteFoods = ["rice", "hamburger"] ∧
      (findEditThenSave 0 none none
          (Store.mk [Doc.mk 0 "ann" none ["rice"]] 1)).store =
        (Store.mk [Doc.mk 0 "ann" none ["rice"]] 1).replaceDoc d' ∧
      ((findEditThenSave 0 none none
          (Store.mk [Doc.mk 0 "ann" none ["rice"]] 1)).store).findById 0 =
        some d') :=
  ⟨rfl, findEditThenSave_appends_hamburger 0
    (Store.mk [Doc.mk 0 "ann" none ["rice"]] 1) (Doc.mk 0 "ann" none ["rice"]) rfl⟩

/-- C6: for every name with at least one matching record, a fault-free
`findAndUpdate` sets `age` to 20 on exactly the first matching record and
persists it, so that a subsequent `findById` for that record's identifier
returns a record whose age is 20; no other record is modified. -/
theorem findAndUpdate_sets_age_twenty (pn : String) (s : Store) (d : Doc)
    (h : s.findOne (fun x => x.name == pn) = some d) :
    ∃ d', (findAndUpdate pn none none s).calls = [CallbackCall.withResult d'] ∧
      d'.age = some 20 ∧ d'._id = d._id ∧ d'.name = d.name ∧
      d'.favoriteFoods = d.favoriteFoods ∧
      ((findAndUpdate pn none none s).store).findById d._id = some d' ∧
      (∀ x ∈ s.docs, x._id ≠ d._id → x ∈ ((findAndUpdate pn none none s).store).docs) ∧
      (∀ y ∈ ((findAndUpdate pn none none s).store).docs, y._id ≠ d._id → y ∈ s.docs) := by
  have h' : s.docs.find? (fun x => x.name == pn) = some d := h
  have hmem : d ∈ s.docs := List.mem_of_find?_eq_some h'
  refine ⟨{ d with age := some 20 }, ?_, rfl, rfl, rfl, rfl, ?_, ?_, ?_⟩
  · simp only [findAndUpdate, h]
  · simp only [findAndUpdate, h]
    simp only [Store.replaceDoc, Store.findById]
    exact find?_replace_self s.docs d._id { d with age := some 20 } rfl ⟨d, hmem, rfl⟩
  · intro x hx hne
    simp only [findAndUpdate, h]
    simp only [Store.replaceDoc]
    refine List.mem_map.mpr ⟨x, hx, ?_⟩
    have hnb : ¬((x._id == ({ d with age := some 20 } : Doc)._id) = true) :=
      fun hc => hne (beq_iff_eq.mp hc)
    rw [if_neg hnb]
  · intro y hy hne
    simp only [findAndUpdate, h] at hy
    simp only [Store.replaceDoc] at hy
    obtain ⟨x, hx, hxy⟩ := List.mem_map.mp hy
    by_cases hb : (x._id == ({ d with age := some 20 } : Doc)._id) = true
    · rw [if_pos hb] at hxy
      have hyid : y._id = d._id := by rw [← hxy]
      exact absurd hyid hne
    · rw [if_neg hb] at hxy
      exact hxy ▸ hx

/-- Witness for C6 at a one-document store. -/
theorem findAndUpdate_sets_age_twenty_witness :
    (Store.mk [Doc.mk 0 "bob" (some 24) []] 1).findOne (fun x => x.name == "bob") =
      some (Doc.mk 0 "bob" (some 24) []) ∧
    (∃ d', (findAndUpdate "bob" none none
          (Store.mk [Doc.mk 0 "bob" (some 24) []] 1)).calls =
        [CallbackCall.withResult d'] ∧
      d'.age = some 20 ∧ d'._id = 0 ∧ d'.name = "bob" ∧
      d'.favoriteFoods = [] ∧
      ((findAndUpdate "bob" none none
          (Store.mk [Doc.mk 0 "bob" (some 24) []] 1)).store).findById 0 = some d' ∧
      (∀ x ∈ (Store.mk [Doc.mk 0 "bob" (some 24) []] 1).docs, x._id ≠ 0 →
        x ∈ ((findAndUpdate "bob" none none
          (Store.mk [Doc.mk 0 "bob" (some 24) []] 1)).store).docs) ∧
      (∀ y ∈ ((findAndUpdate "bob" none none
          (Store.mk [Doc.mk 0 "bob" (some 24) []] 1)).store).docs, y._id ≠ 0 →
        y ∈ (Store.mk [Doc.mk 0 "bob" (some 24) []] 1).docs)) :=
  ⟨rfl, findAndUpdate_sets_age_twenty "bob"
    (Store.mk [Doc.mk 0 "bob" (some 24) []] 1) (Doc.mk 0 "bob" (some 24) []) rfl⟩

/-- C7: for every identifier naming an existing record, when the stored
identifiers are distinct, a successful `removeById` delivers the deleted
record as it was before removal, and a subsequent `findById` for the same
identifier returns the absent-result marker. -/
theorem removeById_deletes_record (i : Nat) (s : Store) (d : Doc)
    (hnd : (s.docs.map Doc._id).Nodup)
    (h : s.findById i = some d) :
    (removeById i none s).calls = [CallbackCall.withResult (some d)] ∧
    ((removeById i none s).store).findById i = none := by
  constructor
  · simp only [removeById, Store.removeDocById, h]
  · simp only [removeById, Store.removeDocById, Store.findById]
    exact find?_eraseP_of_nodup s.docs i hnd

/-- Witness for C7 at a one-document store. -/
theorem removeById_deletes_record_witness :
    ((Store.mk [Doc.mk 0 "cat" none []] 1).docs.map Doc._id).Nodup ∧
    (removeById 0 none (Store.mk [Doc.mk 0 "cat" none []] 1)).calls =
      [CallbackCall.withResult (some (Doc.mk 0 "cat" none []))] ∧
    ((removeById 0 none (Store.mk [Doc.mk 0 "cat" none []] 1)).store).findById 0 = none :=
  ⟨by decide,
    (removeById_deletes_record 0 (Store.mk [Doc.mk 0 "cat" none []] 1)
      (Doc.mk 0 "cat" none []) (by decide) rfl).1,
    (removeById_deletes_record 0 (Store.mk [Doc.mk 0 "cat" none []] 1)
      (Doc.mk 0 "cat" none []) (by decide) rfl).2⟩

/-- C8: when every stored identifier is below the fresh-id counter, a
successful `createAndSavePerson` delivers a created record whose fields
are the inserted ones, and `findById` at its assigned identifier returns
that same record. -/
theorem createAndSavePerson_roundtrip (s : Store)
    (hfresh : ∀ x ∈ s.docs, x._id < s.nextId) :
    ∃ d, (createAndSavePerson none s).calls = [CallbackCall.withResult d] ∧
      d.name = "John G" ∧ d.age = some 30 ∧
      d.favoriteFoods = ["pasta", "fries", "burgers"] ∧
      ((createAndSavePerson none s).store).findById d._id = some d := by
  refine ⟨Doc.mk s.nextId "John G" (some 30) ["pasta", "fries", "burgers"],
    rfl, rfl, rfl, rfl, ?_⟩
  simp only [createAndSavePerson, Store.insertDoc, Store.findById]
  rw [find?_append_of_forall_false]
  · simp [List.find?_cons]
  · intro x hx
    exact beq_eq_false_iff_ne.mpr (Nat.ne_of_lt (hfresh x hx))

/-- Witness for C8 at the empty store. -/
theorem createAndSavePerson_roundtrip_witness :
    (∀ x ∈ (Store.mk [] 0).docs, x._id < (Store.mk [] 0).nextId) ∧
    (∃ d, (createAndSavePerson none (Store.mk [] 0)).calls = [CallbackCall.withResult d] ∧
      d.name = "John G" ∧ d.age = some 30 ∧
      d.favoriteFoods = ["pasta", "fries", "burgers"] ∧
      ((createAndSavePerson none (Store.mk [] 0)).store).findById d._id = some d) :=
  ⟨by decide, createAndSavePerson_roundtrip (Store.mk [] 0) (by decide)⟩

/-! ### Error policy and callback cardinality -/

/-- Predicate on a run: the store failure was logged and the completion
callback was never invoked (in particular it never received the error,
nor any partial result). -/
def failsSilently {α : Type} (o : OpResult α) (e : DBError) : Prop :=
  o.logged = [e] ∧ o.calls = []

/-- Predicate on a run: nothing was logged and the completion callback
was invoked exactly once, with a result and no error. -/
def succeedsCleanly {α : Type} (o : OpResult α) : Prop :=
  o.logged = [] ∧ ∃ r, o.calls = [CallbackCall.withResult r]

/-- C1 counterexample: when the store reports failure `⟨7⟩` to
`findPeopleByName`, the failure is logged but the completion callback is
never invoked with the error — refuting the claim that the callback
receives the error as its sole argument. -/
theorem findPeopleByName_failure_error_not_passed :
    (findPeopleByName "alice" (some ⟨7⟩) ⟨[], 0⟩).logged = [⟨7⟩] ∧
    CallbackCall.withError (⟨7⟩ : DBError) ∉
      (findPeopleByName "alice" (some ⟨7⟩) ⟨[], 0⟩).calls := by
  decide

/-- C1 (amended): for every operation, when the underlying store reports
a failure the failure is logged and the completion callback is not
invoked at all (so it receives neither the error nor any partial
result); on success the callback receives the result with no error. -/
theorem error_policy_logs_failure_without_callback (e : DBError) (s : Store)
    (ps : List PersonPayload) (pn food : String) (i : Nat)
    (hid : (s.findById i).isSome = true)
    (hname : (s.findOne (fun x => x.name == pn)).isSome = true) :
    failsSilently (createAndSavePerson (some e) s) e ∧
    failsSilently (createManyPeople ps (some e) s) e ∧
    failsSilently (findPeopleByName pn (some e) s) e ∧
    failsSilently (findOneByFood food (some e) s) e ∧
    failsSilently (findPersonById i (some e) s) e ∧
    failsSilently (findEditThenSave i (some e) none s) e ∧
    failsSilently (findEditThenSave i none (some e) s) e ∧
    failsSilently (findAndUpdate pn (some e) none s) e ∧
    failsSilently (findAndUpdate pn none (some e) s) e ∧
    failsSilently (removeById i (some e) s) e ∧
    failsSilently (removeManyPeople (some e) s) e ∧
    failsSilently (queryChain (some e) s) e ∧
    succeedsCleanly (createAndSavePerson none s) ∧
    succeedsCleanly (createManyPeople ps none s) ∧
    succeedsCleanly (findPeopleByName pn none s) ∧
    succeedsCleanly (findOneByFood food none s) ∧
    succeedsCleanly (findPersonById i none s) ∧
    succeedsCleanly (findEditThenSave i none none s) ∧
    succeedsCleanly (findAndUpdate pn none none s) ∧
    succeedsCleanly (removeById i none s) ∧
    succeedsCleanly (removeManyPeople none s) ∧
    succeedsCleanly (queryChain none s) := by
  obtain ⟨d, hd⟩ := Option.isSome_iff_exists.mp hid
  obtain ⟨dn, hdn⟩ := Option.isSome_iff_exists.mp hname
  refine ⟨?_, ?_, ?_, ?_, ?_, ?_, ?_, ?_, ?_, ?_, ?_, ?_, ?_, ?_, ?_, ?_,
    ?_, ?_, ?_, ?_, ?_, ?_⟩ <;>
    simp [failsSilently, succeedsCleanly, createAndSavePerson, createManyPeople,
      findPeopleByName, findOneByFood, findPersonById, findEditThenSave,
      findAndUpdate, removeById, removeManyPeople, queryChain, execQuery, hd, hdn]

/-- Witness for the amended C1 at a one-document store. -/
theorem error_policy_logs_failure_without_callback_witness :
    ((Store.mk [Doc.mk 0 "ann" none []] 1).findById 0).isSome = true ∧
    ((Store.mk [Doc.mk 0 "ann" none []] 1).findOne
      (fun x => x.name == "ann")).isSome = true ∧
    failsSilently (createAndSavePerson (some ⟨5⟩)
      (Store.mk [Doc.mk 0 "ann" none []] 1)) ⟨5⟩ :=
  ⟨by decide, by decide,
    (error_policy_logs_failure_without_callback ⟨5⟩
      (Store.mk [Doc.mk 0 "ann" none []] 1) [] "ann" "x" 0
      (by decide) (by decide)).1⟩

/-- C2 counterexample: when the store reports failure `⟨3⟩` to
`createAndSavePerson`, the completion callback is invoked zero times —
refuting the claim that it is invoked exactly once after every store
response. -/
theorem createAndSavePerson_failure_callback_not_invoked :
    (createAndSavePerson (some ⟨3⟩) ⟨[], 0⟩).calls.length = 0 ∧
    ¬(createAndSavePerson (some ⟨3⟩) ⟨[], 0⟩).calls.length = 1 := by
  decide

/-- C2 (amended): for every operation, the completion callback is
invoked exactly once when every store call succeeds (with, for the
load-modify-save operations, a matching record found), and exactly zero
times when any store call reports a failure. -/
theorem callback_once_on_success_zero_on_failure (e : DBError) (s : Store)
    (ps : List PersonPayload) (pn food : String) (i : Nat)
    (hid : (s.findById i).isSome = true)
    (hname : (s.findOne (fun x => x.name == pn)).isSome = true) :
    (createAndSavePerson none s).calls.length = 1 ∧
    (createManyPeople ps none s).calls.length = 1 ∧
    (findPeopleByName pn none s).calls.length = 1 ∧
    (findOneByFood food none s).calls.length = 1 ∧
    (findPersonById i none s).calls.length = 1 ∧
    (findEditThenSave i none none s).calls.length = 1 ∧
    (findAndUpdate pn none none s).calls.length = 1 ∧
    (removeById i none s).calls.length = 1 ∧
    (removeManyPeople none s).calls.length = 1 ∧
    (queryChain none s).calls.length = 1 ∧
    (createAndSavePerson (some e) s).calls.length = 0 ∧
    (createManyPeople ps (some e) s).calls.length = 0 ∧
    (findPeopleByName pn (some e) s).calls.length = 0 ∧
    (findOneByFood food (some e) s).calls.length = 0 ∧
    (findPersonById i (some e) s).calls.length = 0 ∧
    (findEditThenSave i (some e) none s).calls.length = 0 ∧
    (findEditThenSave i none (some e) s).calls.length = 0 ∧
    (findAndUpdate pn (some e) none s).calls.length = 0 ∧
    (findAndUpdate pn none (some e) s).calls.length = 0 ∧
    (removeById i (some e) s).calls.length = 0 ∧
    (removeManyPeople (some e) s).calls.length = 0 ∧
    (queryChain (some e) s).calls.length = 0 := by
  obtain ⟨d, hd⟩ := Option.isSome_iff_exists.mp hid
  obtain ⟨dn, hdn⟩ := Option.isSome_iff_exists.mp hname
  refine ⟨?_, ?_, ?_, ?_, ?_, ?_, ?_, ?_, ?_, ?_, ?_, ?_, ?_, ?_, ?_, ?_,
    ?_, ?_, ?_, ?_, ?_, ?_⟩ <;>
    simp [createAndSavePerson, createManyPeople, findPeopleByName, findOneByFood,
      findPersonById, findEditThenSave, findAndUpdate, removeById,
      removeManyPeople, queryChain, execQuery, hd, hdn]

/-- Witness for the amended C2 at a one-document store. -/
theorem callback_once_on_success_zero_on_failure_witness :
    ((Store.mk [Doc.mk 0 "bea" none []] 1).findById 0).isSome = true ∧
    ((Store.mk [Doc.mk 0 "bea" none []] 1).findOne
      (fun x => x.name == "bea")).isSome = true ∧
    (createAndSavePerson none (Store.mk [Doc.mk 0 "bea" none []] 1)).calls.length = 1 :=
  ⟨by decide, by decide,
    (callback_once_on_success_zero_on_failure ⟨9⟩
      (Store.mk [Doc.mk 0 "bea" none []] 1) [] "bea" "y" 0
      (by decide) (by decide)).1⟩
